import Mathlib

/-!
Verification development for the GPUJPEG encoder core (jpeg_encoder.c).

The file gives a shallow embedding of the three exported operations
(jpeg_encoder_create, jpeg_encoder_encode, jpeg_encoder_destroy) and proves
properties of the lifecycle and of the encode pipeline.  External
collaborators (CUDA allocation and copy primitives, the preprocessor, the
NPP forward-DCT primitive, the Huffman coder, the table setup routines) are
modelled by an environment record giving the status each call returns, and
the pipeline is reflected into an explicit event trace so that ordering and
abort behaviour can be stated.  Bodies of the bitstream-writer emission
primitives live outside the analysed sources; they are modelled from the
specification as byte-appending operations, as marked in their doc comments.
-/

namespace GPUJpeg

/-- Component classes used for table selection: JPEG_COMPONENT_LUMINANCE and
JPEG_COMPONENT_CHROMINANCE. -/
inductive ComponentType where
  | luminance
  | chrominance
  deriving DecidableEq, Repr

/-- Modelled from the spec: the number of component classes is two (luminance
and chrominance).  This stands in for the JPEG_COMPONENT_TYPE_COUNT constant
declared in jpeg_format_type.h, a header that is not among the analysed
sources. -/
def JPEG_COMPONENT_TYPE_COUNT : Nat := 2

/-- Modelled from the spec: one entropy table per coefficient type, and the
coefficient types are DC and AC, so the count is two.  Stands in for the
JPEG_HUFFMAN_TYPE_COUNT constant of the missing header. -/
def JPEG_HUFFMAN_TYPE_COUNT : Nat := 2

/-- Parameter fields of struct jpeg_encoder as set in jpeg_encoder_create
(jpeg_encoder.c lines 44 to 47).  Buffer contents are not modelled; buffer
sizes and identities are tracked through allocation and event lists. -/
structure JpegEncoder where
  width : Nat
  height : Nat
  comp_count : Nat
  quality : Int
  deriving DecidableEq, Repr

/-- Modelled from the spec: the bitstream writer owns an output buffer and a
cursor marking the next free byte.  The bytes field holds exactly the bytes
between the buffer start and the cursor, so the cursor offset from the buffer
start equals bytes.length. -/
structure JpegWriter where
  bytes : List Nat
  deriving DecidableEq, Repr

/-- Appending bytes at the writer cursor advances the cursor past them. -/
def writerAppend (w : JpegWriter) (bs : List Nat) : JpegWriter :=
  ⟨w.bytes ++ bs⟩

/-- Modelled from the spec: jpeg_writer_write_header emits the file and frame
header.  Its byte-level layout belongs to the writer collaborator; it is
modelled as a fixed non-empty marker sequence. -/
def headerBytes (_enc : JpegEncoder) : List Nat := [255, 216]

/-- Modelled from the spec: jpeg_writer_write_scan_header emits a scan header
tagged with the component index and component class. -/
def scanHeaderBytes (_enc : JpegEncoder) (comp : Nat) (cls : ComponentType) : List Nat :=
  [255, 218, comp, if cls = ComponentType.luminance then 0 else 1]

/-- Modelled from the spec: jpeg_writer_emit_marker with JPEG_MARKER_EOI
appends the two-byte end-of-stream trailer marker. -/
def eoiBytes : List Nat := [255, 217]

/-- Source-plane offset used by the DCT loop (line 143): the component plane
starts at comp * width * height inside d_data. -/
def dct_src_offset (enc : JpegEncoder) (comp : Nat) : Nat :=
  comp * enc.width * enc.height

/-- Destination-plane offset used by the DCT loop (line 144): the component
plane starts at comp * width * height inside d_data_quantized. -/
def dct_dst_offset (enc : JpegEncoder) (comp : Nat) : Nat :=
  comp * enc.width * enc.height

/-- Coefficient-plane offset used by the Huffman loop (line 183): the
component plane starts at comp * width * height inside data_quantized. -/
def huffman_src_offset (enc : JpegEncoder) (comp : Nat) : Nat :=
  comp * enc.width * enc.height

/-- Table class chosen in the DCT loop (line 147): component 0 is luminance,
every other component is chrominance. -/
def dctTableType (comp : Nat) : ComponentType :=
  if comp = 0 then ComponentType.luminance else ComponentType.chrominance

/-- Table class chosen in the Huffman loop (line 185): the same conditional
expression as in the DCT loop. -/
def scanTableType (comp : Nat) : ComponentType :=
  if comp = 0 then ComponentType.luminance else ComponentType.chrominance

/-- Component plane region written by the DCT step for a component: the
interval of width * height coefficient indices starting at the destination
offset of line 144 (the NPP region of interest is width by height, lines 152
to 154). -/
def dct_write_region (enc : JpegEncoder) (comp : Nat) : Set Nat :=
  Set.Ico (dct_dst_offset enc comp) (dct_dst_offset enc comp + enc.width * enc.height)

/-- Component plane region read by the Huffman step for a component: the
interval of width * height coefficient indices starting at the offset of
line 183. -/
def huffman_read_region (enc : JpegEncoder) (comp : Nat) : Set Nat :=
  Set.Ico (huffman_src_offset enc comp) (huffman_src_offset enc comp + enc.width * enc.height)

/-- Events of one jpeg_encoder_encode call, in program order. -/
inductive Ev where
  | copySourceToDevice
  | preprocess
  | dct (comp : Nat) (cls : ComponentType) (srcOff : Nat) (dstOff : Nat)
  | resetCursor
  | writeHeader
  | copyQuantizedToHost
  | scanHeader (comp : Nat) (cls : ComponentType)
  | huffman (comp : Nat) (cls : ComponentType) (srcOff : Nat)
  | emitEOI
  deriving DecidableEq, Repr

/-- Diagnostic-channel messages: the fprintf calls at lines 164 and 190 name
the failing component index. -/
inductive Diag where
  | dctFailed (comp : Nat)
  | huffmanFailed (comp : Nat)
  deriving DecidableEq, Repr

/-- Environment of one encode call: the status every external call would
return if issued.  The device-to-host copy result is part of the environment
even though the source never inspects it (line 178). -/
structure EncodeEnv where
  memcpyHtoD_ok : Bool
  preprocess_status : Int
  dct_status : Nat → Int
  memcpyDtoH_ok : Bool
  huffman_status : Nat → Int
  huffman_bytes : Nat → List Nat

/-- Result of one encode call: the returned status, the trace of issued
calls, the diagnostics, the writer state, and the two output parameters
(none when the source never assigns them). -/
structure EncodeResult where
  status : Int
  trace : List Ev
  diag : List Diag
  writer : JpegWriter
  image_compressed : Option Nat
  image_compressed_size : Option Nat
  deriving DecidableEq, Repr

/-- Per-call data size computed by jpeg_encoder_encode (line 128):
width * height * comp_count. -/
def encode_data_size (enc : JpegEncoder) : Nat :=
  enc.width * enc.height * enc.comp_count

/-- DCT and quantization loop (lines 142 to 169): one forward-DCT call per
component plane, table class chosen by index, aborting at the first call with
non-zero status after printing the failing index.  Returns the issued events,
the diagnostics, and the failing component when one exists. -/
def dctLoop (env : EncodeEnv) (enc : JpegEncoder) : List Nat → List Ev × List Diag × Option Nat
  | [] => ([], [], none)
  | comp :: rest =>
    let ev := Ev.dct comp (dctTableType comp) (dct_src_offset enc comp) (dct_dst_offset enc comp)
    if env.dct_status comp ≠ 0 then
      ([ev], [Diag.dctFailed comp], some comp)
    else
      let r := dctLoop env enc rest
      (ev :: r.1, r.2.1, r.2.2)

/-- Huffman coding loop (lines 181 to 193): per component, a scan header is
written and the Huffman coder is invoked on the component plane; a non-zero
status prints the failing index and aborts.  Returns events, diagnostics, the
writer state, and the failing component when one exists. -/
def huffmanLoop (env : EncodeEnv) (enc : JpegEncoder) :
    List Nat → JpegWriter → List Ev × List Diag × JpegWriter × Option Nat
  | [], w => ([], [], w, none)
  | comp :: rest, w =>
    let cls := scanTableType comp
    let w1 := writerAppend w (scanHeaderBytes enc comp cls)
    let w2 := writerAppend w1 (env.huffman_bytes comp)
    let evs : List Ev := [Ev.scanHeader comp cls, Ev.huffman comp cls (huffman_src_offset enc comp)]
    if env.huffman_status comp ≠ 0 then
      (evs, [Diag.huffmanFailed comp], w2, some comp)
    else
      let r := huffmanLoop env enc rest w2
      (evs ++ r.1, r.2.1, r.2.2.1, r.2.2.2)

/-- Shallow embedding of jpeg_encoder_encode (lines 125 to 202).  The checks
mirror the source: the host-to-device copy (line 131), the preprocessor
(line 138) and each DCT status (line 163) abort with -1; the writer cursor is
reset (line 172) and the header written (line 175) before the device-to-host
copy (line 178), whose result the source does not inspect, so the embedding
continues regardless of it; each Huffman status (line 189) aborts with -1;
on the full path the trailer is emitted and the two output parameters are
assigned (lines 195 to 199). -/
def jpeg_encoder_encode (env : EncodeEnv) (enc : JpegEncoder) (w0 : JpegWriter) : EncodeResult :=
  let t1 : List Ev := [Ev.copySourceToDevice]
  if ¬ env.memcpyHtoD_ok then
    ⟨-1, t1, [], w0, none, none⟩
  else
    let t2 := t1 ++ [Ev.preprocess]
    if env.preprocess_status ≠ 0 then
      ⟨-1, t2, [], w0, none, none⟩
    else
      let d := dctLoop env enc (List.range enc.comp_count)
      let t3 := t2 ++ d.1
      match d.2.2 with
      | some _ => ⟨-1, t3, d.2.1, w0, none, none⟩
      | none =>
        let w2 := writerAppend ⟨[]⟩ (headerBytes enc)
        let t4 := t3 ++ [Ev.resetCursor, Ev.writeHeader, Ev.copyQuantizedToHost]
        let hres := huffmanLoop env enc (List.range enc.comp_count) w2
        let t5 := t4 ++ hres.1
        match hres.2.2.2 with
        | some _ => ⟨-1, t5, hres.2.1, hres.2.2.1, none, none⟩
        | none =>
          let w3 := writerAppend hres.2.2.1 eoiBytes
          ⟨0, t5 ++ [Ev.emitEOI], hres.2.1, w3, some 0, some w3.bytes.length⟩

/-- Resources acquired by jpeg_encoder_create, with their byte sizes where
the source passes one. -/
inductive Resource where
  | encoderStruct
  | writer
  | d_data_source (bytes : Nat)
  | d_data (bytes : Nat)
  | data_quantized (bytes : Nat)
  | d_data_quantized (bytes : Nat)
  | quantTableSlot (comp_type : Nat)
  deriving DecidableEq, Repr

/-- Outcome of jpeg_encoder_create: the assert on the component count firing
(modelled as its own outcome, since abort returns no value), a NULL return,
or a fully constructed encoder. -/
inductive CreateOutcome where
  | assertionFailure
  | failure
  | success (enc : JpegEncoder)
  deriving DecidableEq, Repr

/-- Environment of one create call: whether each allocation succeeds and the
status each table setup call returns. -/
structure CreateEnv where
  malloc_ok : Bool
  writer_ok : Bool
  cudaMalloc_d_data_source_ok : Bool
  cudaMalloc_d_data_ok : Bool
  cudaMallocHost_data_quantized_ok : Bool
  cudaMalloc_d_data_quantized_ok : Bool
  cudaMalloc_quant_table_ok : Nat → Bool
  quant_init_status : Nat → Int
  huffman_init_status : Nat → Nat → Int

/-- Element count used for every data buffer allocation in create (line 55).
The source reads encoder width times encoder width times comp_count: the
height field is not used in this expression. -/
def create_data_size (width _height comp_count : Nat) : Nat :=
  width * width * comp_count

/-- Quantization table device allocation loop (lines 66 to 69): one 64-entry
table slot per component class, aborting on allocation failure.  Returns the
acquired slots and whether the loop completed. -/
def quantTableAllocLoop (env : CreateEnv) : List Nat → List Resource × Bool
  | [] => ([], true)
  | ct :: rest =>
    if ¬ env.cudaMalloc_quant_table_ok ct then ([], false)
    else
      let r := quantTableAllocLoop env rest
      (Resource.quantTableSlot ct :: r.1, r.2)

/-- Quantization table setup loop (lines 72 to 75): aborts at the first call
returning non-zero. -/
def quantInitLoop (env : CreateEnv) : List Nat → Bool
  | [] => true
  | ct :: rest =>
    if env.quant_init_status ct ≠ 0 then false else quantInitLoop env rest

/-- Inner Huffman table setup loop over coefficient types (lines 79 to 82). -/
def huffmanInitInner (env : CreateEnv) (ct : Nat) : List Nat → Bool
  | [] => true
  | ht :: rest =>
    if env.huffman_init_status ct ht ≠ 0 then false else huffmanInitInner env ct rest

/-- Outer Huffman table setup loop over component classes (lines 78 to 83). -/
def huffmanInitLoop (env : CreateEnv) : List Nat → Bool
  | [] => true
  | ct :: rest =>
    if huffmanInitInner env ct (List.range JPEG_HUFFMAN_TYPE_COUNT) then
      huffmanInitLoop env rest
    else false

/-- Shallow embedding of jpeg_encoder_create (lines 34 to 86).  The assert on
comp_count (line 37) precedes every allocation; every later failure returns
NULL without cleanup, so the acquired-resource list records what has leaked.
Buffer byte sizes follow lines 55 to 63: data_size elements of one byte for
the two device image buffers and of two bytes (a signed 16 bit coefficient)
for the two quantized buffers. -/
def jpeg_encoder_create (env : CreateEnv) (width height comp_count : Nat) (quality : Int) :
    CreateOutcome × List Resource :=
  if comp_count ≠ 3 then (CreateOutcome.assertionFailure, [])
  else if ¬ env.malloc_ok then (CreateOutcome.failure, [])
  else
    let a1 : List Resource := [Resource.encoderStruct]
    if ¬ env.writer_ok then (CreateOutcome.failure, a1)
    else
      let a2 := a1 ++ [Resource.writer]
      let data_size := create_data_size width height comp_count
      if ¬ env.cudaMalloc_d_data_source_ok then (CreateOutcome.failure, a2)
      else
        let a3 := a2 ++ [Resource.d_data_source data_size]
        if ¬ env.cudaMalloc_d_data_ok then (CreateOutcome.failure, a3)
        else
          let a4 := a3 ++ [Resource.d_data data_size]
          if ¬ env.cudaMallocHost_data_quantized_ok then (CreateOutcome.failure, a4)
          else
            let a5 := a4 ++ [Resource.data_quantized (data_size * 2)]
            if ¬ env.cudaMalloc_d_data_quantized_ok then (CreateOutcome.failure, a5)
            else
              let a6 := a5 ++ [Resource.d_data_quantized (data_size * 2)]
              let q := quantTableAllocLoop env (List.range JPEG_COMPONENT_TYPE_COUNT)
              let a7 := a6 ++ q.1
              if ¬ q.2 then (CreateOutcome.failure, a7)
              else if ¬ quantInitLoop env (List.range JPEG_COMPONENT_TYPE_COUNT) then
                (CreateOutcome.failure, a7)
              else if ¬ huffmanInitLoop env (List.range JPEG_COMPONENT_TYPE_COUNT) then
                (CreateOutcome.failure, a7)
              else
                (CreateOutcome.success ⟨width, height, comp_count, quality⟩, a7)

/-- Handle state of a context passed to destroy: whether each owned pointer
is non-null.  On a fully constructed context every flag is true. -/
structure DestroyHandles where
  quant_table_nonnull : Nat → Bool
  writer_nonnull : Bool
  d_data_source_nonnull : Bool
  d_data_nonnull : Bool
  data_quantized_nonnull : Bool
  d_data_quantized_nonnull : Bool

/-- Resources released by jpeg_encoder_destroy. -/
inductive Freed where
  | quantTable (ct : Nat)
  | writer
  | d_data_source
  | d_data
  | data_quantized
  | d_data_quantized
  | contextAggregate
  deriving DecidableEq, Repr

/-- Quantization table release loop (lines 210 to 213): each slot is freed
only when its pointer is non-null. -/
def quantFreeLoop (h : DestroyHandles) : List Nat → List Freed
  | [] => []
  | ct :: rest =>
    (if h.quant_table_nonnull ct then [Freed.quantTable ct] else []) ++ quantFreeLoop h rest

/-- Shallow embedding of jpeg_encoder_destroy (lines 205 to 230).  Each
assert on a null handle aborts the process, modelled as none; on the
non-aborting path the released resources are listed in program order and the
returned status is the Int of line 229. -/
def jpeg_encoder_destroy (h : DestroyHandles) : Option (Int × List Freed) :=
  let freedTables := quantFreeLoop h (List.range JPEG_COMPONENT_TYPE_COUNT)
  if ¬ h.writer_nonnull then none
  else if ¬ h.d_data_source_nonnull then none
  else if ¬ h.d_data_nonnull then none
  else if ¬ h.data_quantized_nonnull then none
  else if ¬ h.d_data_quantized_nonnull then none
  else
    some (0, freedTables ++
      [Freed.writer, Freed.d_data_source, Freed.d_data,
       Freed.data_quantized, Freed.d_data_quantized, Freed.contextAggregate])

/-- Concatenated scan output of the Huffman loop on the success path: per
component, the scan header bytes then the entropy bytes. -/
def huffBody (env : EncodeEnv) (enc : JpegEncoder) : List Nat → List Nat
  | [] => []
  | comp :: rest =>
    scanHeaderBytes enc comp (scanTableType comp) ++ env.huffman_bytes comp ++
      huffBody env enc rest

/-- Encode environment in which every external call succeeds. -/
def envAllOk : EncodeEnv :=
  ⟨true, 0, fun _ => 0, true, fun _ => 0, fun comp => [100, comp]⟩

/-- Encode environment in which only the device-to-host coefficient copy of
line 178 fails. -/
def envDtoHFail : EncodeEnv :=
  ⟨true, 0, fun _ => 0, false, fun _ => 0, fun comp => [100, comp]⟩

/-- Encode environment in which the forward DCT fails on component index 1
and every other call succeeds. -/
def envDctFail : EncodeEnv :=
  ⟨true, 0, fun comp => if comp = 1 then 1 else 0, true, fun _ => 0, fun comp => [100, comp]⟩

/-- Create environment in which every allocation and table setup succeeds. -/
def createEnvAllOk : CreateEnv :=
  ⟨true, true, true, true, true, true, fun _ => true, fun _ => 0, fun _ _ => 0⟩

/-- A small concrete context: 2 by 2 pixels, three components. -/
def enc0 : JpegEncoder := ⟨2, 2, 3, 75⟩

/-- An empty initial writer. -/
def w00 : JpegWriter := ⟨[]⟩

/-- Destroy handles of a fully constructed context. -/
def handlesAll : DestroyHandles := ⟨fun _ => true, true, true, true, true, true⟩

theorem dctLoop_shape (env : EncodeEnv) (enc : JpegEncoder) :
    ∀ (l : List Nat) (e : Ev), e ∈ (dctLoop env enc l).1 →
      ∃ c, c ∈ l ∧ e = Ev.dct c (dctTableType c) (dct_src_offset enc c) (dct_dst_offset enc c) := by
  intro l
  induction l with
  | nil => intro e he; simp [dctLoop] at he
  | cons comp rest ih =>
    intro e he
    by_cases hs : env.dct_status comp ≠ 0
    · simp [dctLoop, hs] at he
      exact ⟨comp, by simp, he⟩
    · simp [dctLoop, hs] at he
      rcases he with he | he
      · exact ⟨comp, by simp, he⟩
      · rcases ih e he with ⟨c, hc, hce⟩
        exact ⟨c, by simp [hc], hce⟩

theorem dctLoop_complete (env : EncodeEnv) (enc : JpegEncoder) :
    ∀ (l : List Nat), (dctLoop env enc l).2.2 = none →
      ∀ c ∈ l, Ev.dct c (dctTableType c) (dct_src_offset enc c) (dct_dst_offset enc c) ∈
        (dctLoop env enc l).1 := by
  intro l
  induction l with
  | nil => intro _ c hc; simp at hc
  | cons comp rest ih =>
    intro hnone c hc
    by_cases hs : env.dct_status comp ≠ 0
    · simp [dctLoop, hs] at hnone
    · simp [dctLoop, hs] at hnone ⊢
      rcases List.mem_cons.mp hc with hc | hc
      · subst hc; left; exact ⟨rfl, rfl, rfl, rfl⟩
      · right; exact ih hnone c hc

theorem huffmanLoop_shape (env : EncodeEnv) (enc : JpegEncoder) :
    ∀ (l : List Nat) (w : JpegWriter) (e : Ev), e ∈ (huffmanLoop env enc l w).1 →
      ∃ c, c ∈ l ∧ (e = Ev.scanHeader c (scanTableType c) ∨
        e = Ev.huffman c (scanTableType c) (huffman_src_offset enc c)) := by
  intro l
  induction l with
  | nil => intro w e he; simp [huffmanLoop] at he
  | cons comp rest ih =>
    intro w e he
    by_cases hs : env.huffman_status comp ≠ 0
    · simp [huffmanLoop, hs] at he
      rcases he with he | he
      · exact ⟨comp, by simp, Or.inl he⟩
      · exact ⟨comp, by simp, Or.inr he⟩
    · simp [huffmanLoop, hs] at he
      rcases he with he | he | he
      · exact ⟨comp, by simp, Or.inl he⟩
      · exact ⟨comp, by simp, Or.inr he⟩
      · rcases ih _ e he with ⟨c, hc, hce⟩
        exact ⟨c, by simp [hc], hce⟩

theorem huffmanLoop_bytes (env : EncodeEnv) (enc : JpegEncoder) :
    ∀ (l : List Nat) (w : JpegWriter), (huffmanLoop env enc l w).2.2.2 = none →
      ((huffmanLoop env enc l w).2.2.1).bytes = w.bytes ++ huffBody env enc l := by
  intro l
  induction l with
  | nil => intro w _; simp [huffmanLoop, huffBody]
  | cons comp rest ih =>
    intro w hnone
    by_cases hs : env.huffman_status comp ≠ 0
    · simp [huffmanLoop, hs] at hnone
    · have hnone2 : (huffmanLoop env enc rest
          (writerAppend (writerAppend w (scanHeaderBytes enc comp (scanTableType comp)))
            (env.huffman_bytes comp))).2.2.2 = none := by
        simpa [huffmanLoop, hs] using hnone
      have h2 := ih _ hnone2
      simp [huffmanLoop, hs, huffBody, writerAppend] at h2 ⊢
      simp [h2]

theorem dctLoop_range'_fail (env : EncodeEnv) (enc : JpegEncoder) (c : Nat)
    (hfail : env.dct_status c ≠ 0) :
    ∀ (n s : Nat), s ≤ c → c < s + n → (∀ j, s ≤ j → j < c → env.dct_status j = 0) →
      (dctLoop env enc (List.range' s n)).2 = ([Diag.dctFailed c], some c) := by
  intro n
  induction n with
  | zero => intro s hs hlt _; omega
  | succ n ih =>
    intro s hs hlt hok
    rw [List.range'_succ]
    by_cases hsc : s = c
    · subst hsc
      simp [dctLoop, hfail]
    · have hslt : s < c := lt_of_le_of_ne hs hsc
      have hs0 : env.dct_status s = 0 := hok s le_rfl hslt
      have := ih (s + 1) hslt (by omega) (fun j hj hjc => hok j (by omega) hjc)
      simp [dctLoop, hs0, this]

theorem takeWhile_prefix_eq {α : Type} (p : α → Bool) :
    ∀ (l1 : List α) (x : α) (l2 : List α), (∀ y ∈ l1, p y = true) → p x = false →
      (l1 ++ x :: l2).takeWhile p = l1 := by
  intro l1
  induction l1 with
  | nil => intro x l2 _ hx; simp [List.takeWhile_cons, hx]
  | cons a l ih =>
    intro x l2 hall hx
    have ha : p a = true := hall a (by simp)
    simp [List.takeWhile_cons, ha]
    exact ih x l2 (fun y hy => hall y (by simp [hy])) hx

/-- C1: the claim states that the device source and working buffers and the
two quantized-coefficient buffers are each sized by width * height *
comp_count; jpeg_encoder_create (line 55) instead computes the element count
as width * width * comp_count, so at width 2, height 4, comp_count 3 every
buffer receives 12 elements where the claim requires 24, even though
jpeg_encoder_encode (line 128) sizes its copies by width * height *
comp_count = 24.  This theorem evaluates the embedded create at that input
and exhibits the divergence. -/
theorem c1_create_sizes_buffers_by_width_squared :
    (jpeg_encoder_create createEnvAllOk 2 4 3 75).1 = CreateOutcome.success ⟨2, 4, 3, 75⟩
    ∧ Resource.d_data_source (create_data_size 2 4 3) ∈
        (jpeg_encoder_create createEnvAllOk 2 4 3 75).2
    ∧ Resource.d_data (create_data_size 2 4 3) ∈
        (jpeg_encoder_create createEnvAllOk 2 4 3 75).2
    ∧ Resource.data_quantized (create_data_size 2 4 3 * 2) ∈
        (jpeg_encoder_create createEnvAllOk 2 4 3 75).2
    ∧ Resource.d_data_quantized (create_data_size 2 4 3 * 2) ∈
        (jpeg_encoder_create createEnvAllOk 2 4 3 75).2
    ∧ create_data_size 2 4 3 = 12
    ∧ create_data_size 2 4 3 ≠ 2 * 4 * 3
    ∧ create_data_size 2 4 3 < encode_data_size ⟨2, 4, 3, 75⟩ := by
  decide

/-- C2: the claim states that a failure of the bulk device-to-host
coefficient transfer makes encode return the failure signal with no later
step running; the source (line 178) never inspects the cudaMemcpy result, so
with that transfer failing and every other call succeeding the embedded
encode still runs the Huffman stage for all three components, emits the
trailer, assigns both outputs and returns 0. -/
theorem c2_coefficient_copy_failure_is_ignored :
    envDtoHFail.memcpyDtoH_ok = false
    ∧ (jpeg_encoder_encode envDtoHFail enc0 w00).status = 0
    ∧ Ev.huffman 0 ComponentType.luminance 0 ∈ (jpeg_encoder_encode envDtoHFail enc0 w00).trace
    ∧ Ev.huffman 1 ComponentType.chrominance 4 ∈ (jpeg_encoder_encode envDtoHFail enc0 w00).trace
    ∧ Ev.huffman 2 ComponentType.chrominance 8 ∈ (jpeg_encoder_encode envDtoHFail enc0 w00).trace
    ∧ Ev.emitEOI ∈ (jpeg_encoder_encode envDtoHFail enc0 w00).trace
    ∧ (jpeg_encoder_encode envDtoHFail enc0 w00).image_compressed = some 0 := by
  decide

/-- C5: the claim states that encode writes its output parameters exactly
when every pipeline step succeeded; since the source never checks the
device-to-host transfer of line 178, an encode call in which that step fails
and all others succeed still assigns the output pointer and length and
returns success, refuting the only-if direction.  This theorem evaluates the
embedded encode on that environment. -/
theorem c5_outputs_written_despite_failed_step :
    envDtoHFail.memcpyDtoH_ok = false
    ∧ (jpeg_encoder_encode envDtoHFail enc0 w00).status = 0
    ∧ (jpeg_encoder_encode envDtoHFail enc0 w00).image_compressed = some 0
    ∧ (jpeg_encoder_encode envDtoHFail enc0 w00).image_compressed_size =
        some (jpeg_encoder_encode envDtoHFail enc0 w00).writer.bytes.length := by
  decide

/-- C3: for every component count other than 3 and every environment, create
fails deterministically (the assert of line 37, the invalid-configuration
check, fires before any call that could acquire a resource) and the acquired
resource list is empty. -/
theorem c3_create_rejects_bad_comp_count (env : CreateEnv)
    (width height comp_count : Nat) (quality : Int) (h : comp_count ≠ 3) :
    jpeg_encoder_create env width height comp_count quality =
      (CreateOutcome.assertionFailure, []) := by
  unfold jpeg_encoder_create
  simp [h]

/-- Witness for C3 at comp_count 4. -/
theorem c3_create_rejects_bad_comp_count_witness :
    (4 : Nat) ≠ 3 ∧
    jpeg_encoder_create createEnvAllOk 16 16 4 75 = (CreateOutcome.assertionFailure, []) :=
  ⟨by decide, c3_create_rejects_bad_comp_count createEnvAllOk 16 16 4 75 (by decide)⟩

/-- C10: on every fully constructed context (all handles non-null), destroy
releases both per-class quantization table slots, the writer, the device
source and working buffers, the host and device quantized buffers, and the
context aggregate, and returns status 0. -/
theorem c10_destroy_releases_everything_status_zero (h : DestroyHandles)
    (hq : ∀ ct, ct < JPEG_COMPONENT_TYPE_COUNT → h.quant_table_nonnull ct = true)
    (hw : h.writer_nonnull = true) (h1 : h.d_data_source_nonnull = true)
    (h2 : h.d_data_nonnull = true) (h3 : h.data_quantized_nonnull = true)
    (h4 : h.d_data_quantized_nonnull = true) :
    jpeg_encoder_destroy h = some (0,
      [Freed.quantTable 0, Freed.quantTable 1, Freed.writer, Freed.d_data_source,
       Freed.d_data, Freed.data_quantized, Freed.d_data_quantized, Freed.contextAggregate]) := by
  have e : List.range JPEG_COMPONENT_TYPE_COUNT = [0, 1] := rfl
  unfold jpeg_encoder_destroy
  rw [e]
  simp [quantFreeLoop, hq 0 (by decide), hq 1 (by decide), hw, h1, h2, h3, h4]

/-- Witness for C10 on concrete all-non-null handles. -/
theorem c10_destroy_releases_everything_status_zero_witness :
    handlesAll.writer_nonnull = true ∧
    jpeg_encoder_destroy handlesAll = some (0,
      [Freed.quantTable 0, Freed.quantTable 1, Freed.writer, Freed.d_data_source,
       Freed.d_data, Freed.data_quantized, Freed.d_data_quantized, Freed.contextAggregate]) :=
  ⟨rfl, c10_destroy_releases_everything_status_zero handlesAll (fun _ _ => rfl)
    rfl rfl rfl rfl rfl⟩

theorem encode_trace_shape (env : EncodeEnv) (enc : JpegEncoder) (w0 : JpegWriter) :
    ∀ e ∈ (jpeg_encoder_encode env enc w0).trace,
      e = Ev.copySourceToDevice ∨ e = Ev.preprocess ∨
      (∃ c, e = Ev.dct c (dctTableType c) (dct_src_offset enc c) (dct_dst_offset enc c)) ∨
      e = Ev.resetCursor ∨ e = Ev.writeHeader ∨ e = Ev.copyQuantizedToHost ∨
      (∃ c, e = Ev.scanHeader c (scanTableType c)) ∨
      (∃ c, e = Ev.huffman c (scanTableType c) (huffman_src_offset enc c)) ∨
      e = Ev.emitEOI := by
  intro e he
  by_cases h1 : env.memcpyHtoD_ok
  · by_cases h2 : env.preprocess_status = 0
    · cases hdd : (dctLoop env enc (List.range enc.comp_count)).2.2 with
      | some x =>
        simp [jpeg_encoder_encode, h1, h2, hdd] at he
        rcases he with he | he | he
        · exact Or.inl he
        · exact Or.inr (Or.inl he)
        · obtain ⟨c, _, rfl⟩ := dctLoop_shape env enc _ e he
          exact Or.inr (Or.inr (Or.inl ⟨c, rfl⟩))
      | none =>
        cases hhh : (huffmanLoop env enc (List.range enc.comp_count)
            (writerAppend ⟨[]⟩ (headerBytes enc))).2.2.2 with
        | some y =>
          simp [jpeg_encoder_encode, h1, h2, hdd, hhh] at he
          rcases he with he | he | he | he | he | he | he
          · exact Or.inl he
          · exact Or.inr (Or.inl he)
          · obtain ⟨c, _, rfl⟩ := dctLoop_shape env enc _ e he
            exact Or.inr (Or.inr (Or.inl ⟨c, rfl⟩))
          · exact Or.inr (Or.inr (Or.inr (Or.inl he)))
          · exact Or.inr (Or.inr (Or.inr (Or.inr (Or.inl he))))
          · exact Or.inr (Or.inr (Or.inr (Or.inr (Or.inr (Or.inl he)))))
          · obtain ⟨c, _, hce⟩ := huffmanLoop_shape env enc _ _ e he
            rcases hce with rfl | rfl
            · exact Or.inr (Or.inr (Or.inr (Or.inr (Or.inr (Or.inr (Or.inl ⟨c, rfl⟩))))))
            · exact Or.inr (Or.inr (Or.inr (Or.inr (Or.inr (Or.inr (Or.inr (Or.inl ⟨c, rfl⟩)))))))
        | none =>
          simp [jpeg_encoder_encode, h1, h2, hdd, hhh] at he
          rcases he with he | he | he | he | he | he | he | he
          · exact Or.inl he
          · exact Or.inr (Or.inl he)
          · obtain ⟨c, _, rfl⟩ := dctLoop_shape env enc _ e he
            exact Or.inr (Or.inr (Or.inl ⟨c, rfl⟩))
          · exact Or.inr (Or.inr (Or.inr (Or.inl he)))
          · exact Or.inr (Or.inr (Or.inr (Or.inr (Or.inl he))))
          · exact Or.inr (Or.inr (Or.inr (Or.inr (Or.inr (Or.inl he)))))
          · obtain ⟨c, _, hce⟩ := huffmanLoop_shape env enc _ _ e he
            rcases hce with rfl | rfl
            · exact Or.inr (Or.inr (Or.inr (Or.inr (Or.inr (Or.inr (Or.inl ⟨c, rfl⟩))))))
            · exact Or.inr (Or.inr (Or.inr (Or.inr (Or.inr (Or.inr (Or.inr (Or.inl ⟨c, rfl⟩)))))))
          · exact Or.inr (Or.inr (Or.inr (Or.inr (Or.inr (Or.inr (Or.inr (Or.inr he)))))))
    · simp [jpeg_encoder_encode, h1, h2] at he
      rcases he with he | he
      · exact Or.inl he
      · exact Or.inr (Or.inl he)
  · simp [jpeg_encoder_encode, h1] at he
    exact Or.inl he

/-- C4: when the forward DCT is reached and returns non-zero for the first
failing component index c (the source copy and the preprocessor succeeded and
every earlier component transformed cleanly), encode returns -1, the
diagnostic channel names exactly index c (the fprintf of line 164), and no
Huffman-stage invocation appears anywhere in the trace of the call. -/
theorem c4_dct_failure_aborts_whole_encode (env : EncodeEnv) (enc : JpegEncoder)
    (w0 : JpegWriter) (c : Nat)
    (hcopy : env.memcpyHtoD_ok = true) (hpre : env.preprocess_status = 0)
    (hc : c < enc.comp_count) (hfail : env.dct_status c ≠ 0)
    (hfirst : ∀ j, j < c → env.dct_status j = 0) :
    (jpeg_encoder_encode env enc w0).status = -1
    ∧ (jpeg_encoder_encode env enc w0).diag = [Diag.dctFailed c]
    ∧ ∀ c2 cls s, Ev.huffman c2 cls s ∉ (jpeg_encoder_encode env enc w0).trace := by
  have hd : (dctLoop env enc (List.range enc.comp_count)).2 = ([Diag.dctFailed c], some c) := by
    rw [List.range_eq_range']
    exact dctLoop_range'_fail env enc c hfail enc.comp_count 0 (Nat.zero_le c)
      (by omega) (fun j _ hj => hfirst j hj)
  have hsome : (dctLoop env enc (List.range enc.comp_count)).2.2 = some c := by rw [hd]
  have hdiag : (dctLoop env enc (List.range enc.comp_count)).2.1 = [Diag.dctFailed c] := by
    rw [hd]
  refine ⟨?_, ?_, ?_⟩
  · simp [jpeg_encoder_encode, hcopy, hpre, hsome]
  · simp [jpeg_encoder_encode, hcopy, hpre, hsome, hdiag]
  · intro c2 cls s hmem
    simp [jpeg_encoder_encode, hcopy, hpre, hsome] at hmem
    obtain ⟨c3, _, hshape⟩ := dctLoop_shape env enc _ _ hmem
    exact Ev.noConfusion hshape

/-- Witness for C4: the DCT fails on component index 1 of a three-component
context. -/
theorem c4_dct_failure_aborts_whole_encode_witness :
    envDctFail.dct_status 1 ≠ 0 ∧ 1 < enc0.comp_count ∧
    ((jpeg_encoder_encode envDctFail enc0 w00).status = -1
     ∧ (jpeg_encoder_encode envDctFail enc0 w00).diag = [Diag.dctFailed 1]
     ∧ ∀ c2 cls s, Ev.huffman c2 cls s ∉ (jpeg_encoder_encode envDctFail enc0 w00).trace) :=
  ⟨by decide, by decide,
    c4_dct_failure_aborts_whole_encode envDctFail enc0 w00 1 rfl rfl (by decide) (by decide)
      (fun j hj => by
        have hj0 : j = 0 := Nat.lt_one_iff.mp hj
        subst hj0
        rfl)⟩

/-- C6: whenever the device-to-host coefficient copy is issued in an encode
call, the forward-DCT invocation of every component index below comp_count
already appears in the part of the trace strictly before that copy, so the
copy observes the full set of transform results. -/
theorem c6_all_transforms_precede_coefficient_copy (env : EncodeEnv) (enc : JpegEncoder)
    (w0 : JpegWriter)
    (hmem : Ev.copyQuantizedToHost ∈ (jpeg_encoder_encode env enc w0).trace)
    (c : Nat) (hc : c < enc.comp_count) :
    Ev.dct c (dctTableType c) (dct_src_offset enc c) (dct_dst_offset enc c) ∈
      (jpeg_encoder_encode env enc w0).trace.takeWhile
        (fun e => decide (e ≠ Ev.copyQuantizedToHost)) := by
  by_cases h1 : env.memcpyHtoD_ok
  · by_cases h2 : env.preprocess_status = 0
    · cases hdd : (dctLoop env enc (List.range enc.comp_count)).2.2 with
      | some x =>
        simp [jpeg_encoder_encode, h1, h2, hdd] at hmem
        obtain ⟨c3, _, hshape⟩ := dctLoop_shape env enc _ _ hmem
        exact Ev.noConfusion hshape
      | none =>
        have hsplit : ∃ rest, (jpeg_encoder_encode env enc w0).trace =
            (Ev.copySourceToDevice :: Ev.preprocess ::
              ((dctLoop env enc (List.range enc.comp_count)).1 ++
                [Ev.resetCursor, Ev.writeHeader])) ++ Ev.copyQuantizedToHost :: rest := by
          cases hhh : (huffmanLoop env enc (List.range enc.comp_count)
              (writerAppend ⟨[]⟩ (headerBytes enc))).2.2.2 with
          | some y =>
            exact ⟨(huffmanLoop env enc (List.range enc.comp_count)
              (writerAppend ⟨[]⟩ (headerBytes enc))).1,
              by simp [jpeg_encoder_encode, h1, h2, hdd, hhh]⟩
          | none =>
            exact ⟨(huffmanLoop env enc (List.range enc.comp_count)
              (writerAppend ⟨[]⟩ (headerBytes enc))).1 ++ [Ev.emitEOI],
              by simp [jpeg_encoder_encode, h1, h2, hdd, hhh]⟩
        obtain ⟨rest, htr⟩ := hsplit
        have hall : ∀ y ∈ (Ev.copySourceToDevice :: Ev.preprocess ::
            ((dctLoop env enc (List.range enc.comp_count)).1 ++
              [Ev.resetCursor, Ev.writeHeader])),
            (fun e => decide (e ≠ Ev.copyQuantizedToHost)) y = true := by
          intro y hy
          simp at hy
          simp only [decide_eq_true_eq]
          rcases hy with rfl | rfl | hy | rfl | rfl
          · simp
          · simp
          · obtain ⟨c3, _, rfl⟩ := dctLoop_shape env enc _ y hy
            simp
          · simp
          · simp
        rw [htr, takeWhile_prefix_eq _ _ _ _ hall (by simp)]
        have hcmem : Ev.dct c (dctTableType c) (dct_src_offset enc c) (dct_dst_offset enc c) ∈
            (dctLoop env enc (List.range enc.comp_count)).1 :=
          dctLoop_complete env enc _ hdd c (List.mem_range.mpr hc)
        simp [hcmem]
    · simp [jpeg_encoder_encode, h1, h2] at hmem
  · simp [jpeg_encoder_encode, h1] at hmem

/-- Witness for C6: a fully successful encode on a 2 by 2, three-component
context; the transform of component 1 is in the prefix before the copy. -/
theorem c6_all_transforms_precede_coefficient_copy_witness :
    Ev.copyQuantizedToHost ∈ (jpeg_encoder_encode envAllOk enc0 w00).trace ∧
    1 < enc0.comp_count ∧
    Ev.dct 1 (dctTableType 1) (dct_src_offset enc0 1) (dct_dst_offset enc0 1) ∈
      (jpeg_encoder_encode envAllOk enc0 w00).trace.takeWhile
        (fun e => decide (e ≠ Ev.copyQuantizedToHost)) :=
  ⟨by decide, by decide,
    c6_all_transforms_precede_coefficient_copy envAllOk enc0 w00 (by decide) 1 (by decide)⟩

/-- C7: for every context and component index, the region written by the
forward DCT for that component is exactly the interval from i times
width times height up to (i plus 1) times width times height, the region the
Huffman stage reads is the same interval, regions are adjacent (no padding),
and regions of different components are disjoint (no interleaving). -/
theorem c7_component_region_addressing (enc : JpegEncoder) (i j : Nat) (hij : i < j) :
    dct_write_region enc i =
      Set.Ico (i * (enc.width * enc.height)) ((i + 1) * (enc.width * enc.height))
    ∧ huffman_read_region enc i = dct_write_region enc i
    ∧ dct_dst_offset enc (i + 1) = dct_dst_offset enc i + enc.width * enc.height
    ∧ Disjoint (dct_write_region enc i) (dct_write_region enc j) := by
  have eIco : ∀ k : Nat, dct_write_region enc k =
      Set.Ico (k * (enc.width * enc.height)) ((k + 1) * (enc.width * enc.height)) := by
    intro k
    have hoff : dct_dst_offset enc k = k * (enc.width * enc.height) := by
      unfold dct_dst_offset
      ring
    have hend : k * (enc.width * enc.height) + enc.width * enc.height =
        (k + 1) * (enc.width * enc.height) := by
      ring
    unfold dct_write_region
    rw [hoff, hend]
  refine ⟨eIco i, ?_, ?_, ?_⟩
  · unfold huffman_read_region dct_write_region huffman_src_offset dct_dst_offset
    rfl
  · unfold dct_dst_offset
    ring
  · rw [eIco i, eIco j, Set.disjoint_left]
    intro x hx1 hx2
    have hle : (i + 1) * (enc.width * enc.height) ≤ j * (enc.width * enc.height) :=
      Nat.mul_le_mul_right _ hij
    exact absurd (lt_of_lt_of_le hx1.2 hle) (not_lt.mpr hx2.1)

/-- Witness for C7 at a concrete context and the component pair 0, 1. -/
theorem c7_component_region_addressing_witness :
    0 < 1 ∧
    (dct_write_region enc0 0 =
      Set.Ico (0 * (enc0.width * enc0.height)) ((0 + 1) * (enc0.width * enc0.height))
    ∧ huffman_read_region enc0 0 = dct_write_region enc0 0
    ∧ dct_dst_offset enc0 1 = dct_dst_offset enc0 0 + enc0.width * enc0.height
    ∧ Disjoint (dct_write_region enc0 0) (dct_write_region enc0 1)) :=
  ⟨by decide, c7_component_region_addressing enc0 0 1 (by decide)⟩

/-- C8: whenever one encode call both transforms component c and emits the
scan header for component c, the two carry the same component class, and
that class is the fixed binary split of lines 147 and 185: index 0 is
luminance and every other index is chrominance. -/
theorem c8_component_class_fixed_binary_split (env : EncodeEnv) (enc : JpegEncoder)
    (w0 : JpegWriter) (c : Nat) (cls1 cls2 : ComponentType) (s1 d1 : Nat)
    (h1 : Ev.dct c cls1 s1 d1 ∈ (jpeg_encoder_encode env enc w0).trace)
    (h2 : Ev.scanHeader c cls2 ∈ (jpeg_encoder_encode env enc w0).trace) :
    cls1 = cls2
    ∧ cls1 = dctTableType c
    ∧ cls2 = scanTableType c
    ∧ (c = 0 → cls1 = ComponentType.luminance)
    ∧ (c ≠ 0 → cls1 = ComponentType.chrominance) := by
  have hd : cls1 = dctTableType c := by
    rcases encode_trace_shape env enc w0 _ h1 with he | he | ⟨c3, he⟩ | he | he | he |
      ⟨c3, he⟩ | ⟨c3, he⟩ | he
    all_goals first
      | exact Ev.noConfusion he
      | (injection he with hc3 hcls _ _; subst hc3; exact hcls)
  have hsc : cls2 = scanTableType c := by
    rcases encode_trace_shape env enc w0 _ h2 with he | he | ⟨c3, he⟩ | he | he | he |
      ⟨c3, he⟩ | ⟨c3, he⟩ | he
    all_goals first
      | exact Ev.noConfusion he
      | (injection he with hc3 hcls; subst hc3; exact hcls)
  have hsame : dctTableType c = scanTableType c := rfl
  refine ⟨by rw [hd, hsc, hsame], hd, hsc, ?_, ?_⟩
  · intro h0
    rw [hd, dctTableType, if_pos h0]
  · intro h0
    rw [hd, dctTableType, if_neg h0]

/-- Witness for C8 at component 1 of a successful concrete encode. -/
theorem c8_component_class_fixed_binary_split_witness :
    Ev.dct 1 ComponentType.chrominance 4 4 ∈ (jpeg_encoder_encode envAllOk enc0 w00).trace ∧
    Ev.scanHeader 1 ComponentType.chrominance ∈ (jpeg_encoder_encode envAllOk enc0 w00).trace ∧
    (ComponentType.chrominance = ComponentType.chrominance
    ∧ ComponentType.chrominance = dctTableType 1
    ∧ ComponentType.chrominance = scanTableType 1
    ∧ (1 = 0 → ComponentType.chrominance = ComponentType.luminance)
    ∧ ((1 : Nat) ≠ 0 → ComponentType.chrominance = ComponentType.chrominance)) :=
  ⟨by decide, by decide,
    c8_component_class_fixed_binary_split envAllOk enc0 w00 1
      ComponentType.chrominance ComponentType.chrominance 4 4 (by decide) (by decide)⟩

theorem encode_success_bytes (env : EncodeEnv) (enc : JpegEncoder) (w0 : JpegWriter)
    (hs : (jpeg_encoder_encode env enc w0).status = 0) :
    (jpeg_encoder_encode env enc w0).writer.bytes =
      headerBytes enc ++ huffBody env enc (List.range enc.comp_count) ++ eoiBytes
    ∧ (jpeg_encoder_encode env enc w0).image_compressed = some 0
    ∧ (jpeg_encoder_encode env enc w0).image_compressed_size =
        some (jpeg_encoder_encode env enc w0).writer.bytes.length := by
  by_cases h1 : env.memcpyHtoD_ok
  · by_cases h2 : env.preprocess_status = 0
    · cases hdd : (dctLoop env enc (List.range enc.comp_count)).2.2 with
      | some x =>
        simp [jpeg_encoder_encode, h1, h2, hdd] at hs
      | none =>
        cases hhh : (huffmanLoop env enc (List.range enc.comp_count)
            (writerAppend ⟨[]⟩ (headerBytes enc))).2.2.2 with
        | some y =>
          simp [jpeg_encoder_encode, h1, h2, hdd, hhh] at hs
        | none =>
          have hb := huffmanLoop_bytes env enc (List.range enc.comp_count)
            (writerAppend ⟨[]⟩ (headerBytes enc)) hhh
          have hhh2 : (huffmanLoop env enc (List.range enc.comp_count)
              ⟨headerBytes enc⟩).2.2.2 = none := by
            simpa [writerAppend] using hhh
          simp [writerAppend] at hb
          refine ⟨?_, ?_, ?_⟩
          · simp [jpeg_encoder_encode, h1, h2, hdd, hhh, hhh2, writerAppend, hb]
          · simp [jpeg_encoder_encode, h1, h2, hdd, hhh, hhh2, writerAppend]
          · simp [jpeg_encoder_encode, h1, h2, hdd, hhh, hhh2, writerAppend]
    · simp [jpeg_encoder_encode, h1, h2] at hs
  · simp [jpeg_encoder_encode, h1] at hs

/-- C9: on every encode call returning success, independently of the writer
state left by any earlier call, the output bytes between the buffer start and
the cursor are exactly the header, then per component in increasing index
order the scan header followed by the entropy-coded data of that component,
then the trailer marker; the byte range is non-empty, begins with the header,
ends with the trailer, and the reported length is the cursor offset.  The
statement quantifies over the writer state produced by a preceding encode
call, so a second successful encode again starts at the buffer start. -/
theorem c9_success_output_begins_header_ends_trailer (env1 env2 : EncodeEnv)
    (enc : JpegEncoder) (w0 : JpegWriter)
    (hs : (jpeg_encoder_encode env2 enc (jpeg_encoder_encode env1 enc w0).writer).status = 0) :
    (jpeg_encoder_encode env2 enc (jpeg_encoder_encode env1 enc w0).writer).writer.bytes =
      headerBytes enc ++ huffBody env2 enc (List.range enc.comp_count) ++ eoiBytes
    ∧ (jpeg_encoder_encode env2 enc (jpeg_encoder_encode env1 enc w0).writer).writer.bytes ≠ []
    ∧ (jpeg_encoder_encode env2 enc (jpeg_encoder_encode env1 enc w0).writer).image_compressed =
        some 0
    ∧ (jpeg_encoder_encode env2 enc (jpeg_encoder_encode env1 enc w0).writer).image_compressed_size =
        some (jpeg_encoder_encode env2 enc
          (jpeg_encoder_encode env1 enc w0).writer).writer.bytes.length := by
  obtain ⟨hbytes, hptr, hsize⟩ :=
    encode_success_bytes env2 enc (jpeg_encoder_encode env1 enc w0).writer hs
  refine ⟨hbytes, ?_, hptr, hsize⟩
  rw [hbytes]
  simp [headerBytes]

/-- Witness for C9: two successful encode calls in a row on the same context. -/
theorem c9_success_output_begins_header_ends_trailer_witness :
    (jpeg_encoder_encode envAllOk enc0 (jpeg_encoder_encode envAllOk enc0 w00).writer).status = 0 ∧
    ((jpeg_encoder_encode envAllOk enc0 (jpeg_encoder_encode envAllOk enc0 w00).writer).writer.bytes =
      headerBytes enc0 ++ huffBody envAllOk enc0 (List.range enc0.comp_count) ++ eoiBytes
    ∧ (jpeg_encoder_encode envAllOk enc0
        (jpeg_encoder_encode envAllOk enc0 w00).writer).writer.bytes ≠ []
    ∧ (jpeg_encoder_encode envAllOk enc0
        (jpeg_encoder_encode envAllOk enc0 w00).writer).image_compressed = some 0
    ∧ (jpeg_encoder_encode envAllOk enc0
        (jpeg_encoder_encode envAllOk enc0 w00).writer).image_compressed_size =
        some (jpeg_encoder_encode envAllOk enc0
          (jpeg_encoder_encode envAllOk enc0 w00).writer).writer.bytes.length) :=
  ⟨by decide,
    c9_success_output_begins_header_ends_trailer envAllOk envAllOk enc0 w00 (by decide)⟩

end GPUJpeg
